import Mathlib

/-!
# cpp-types-zoo

A shallow embedding of `main.cpp`: the type-label extractor `type_name<T>()`, which slices the
name of `T` out of the compiler's `__PRETTY_FUNCTION__` signature, and the report emitter
`main`, which writes a fixed Markdown document to standard output.

* A `std::string_view` is a Lean `String`; every `Char` of its `data` stands for one `char`.
* `std::size_t` is a natural number taken modulo `2 ^ 64`.
* The types the program instantiates are `int`, pointers to `int`, their `const` variants and
  references to them; the deduction rules of `decltype`, `auto`, `auto&`, `const auto&`,
  `auto&&`, `decltype(auto)` and `auto*` are functions on that universe.
* Standard output is the sequence of operands handed to `operator<<`, rendered in order.
-/

namespace TypesZoo

/-! ## `std::size_t` and `std::string_view` -/

/-- The value `std::string_view::npos`, the largest `std::size_t`. -/
def npos : Nat := 2 ^ 64 - 1

/-- Unsigned subtraction `a - b` on `std::size_t`: the result wraps modulo `2 ^ 64`. -/
def size_sub (a b : Nat) : Nat := (a + (2 ^ 64 - b % 2 ^ 64)) % 2 ^ 64

/-- The scan behind `std::string_view::find`: the first argument is the character searched for,
the list holds the characters not yet visited and the number is the index of its head. -/
def find_from (ch : Char) : List Char → Nat → Nat
  | [], _ => npos
  | c :: cs, i => if c = ch then i else find_from ch cs (i + 1)

/-- The call `p.find(ch, pos)`: index of the first `ch` at or after `pos`, else `npos`. -/
def find (p : String) (ch : Char) (pos : Nat) : Nat :=
  find_from ch (p.data.drop pos) pos

/-- The range of `len` characters starting at index `off` lies within `p`. -/
def lies_within (p : String) (off len : Nat) : Prop := off + len ≤ p.length

instance (p : String) (off len : Nat) : Decidable (lies_within p off len) :=
  inferInstanceAs (Decidable (off + len ≤ p.length))

/-- The constructor call `std::string_view(p.data() + off, len)`. The constructor does not
check its arguments; a range that reaches past the end of `p` is undefined behaviour and
is reported as `none`. -/
def string_view (p : String) (off len : Nat) : Option String :=
  if lies_within p off len then some ⟨(p.data.drop off).take len⟩ else none

/-- The Clang branch of `type_name`, applied to the signature `p = __PRETTY_FUNCTION__`:
`std::string_view(p.data() + 34, p.size() - 34 - 1)`. -/
def type_name_clang (p : String) : Option String :=
  string_view p 34 (size_sub (size_sub p.length 34) 1)

/-- The GCC branch of `type_name`, applied to the signature `p = __PRETTY_FUNCTION__`:
`std::string_view(p.data() + 49, p.find(';', 49) - 49)`. -/
def type_name_gcc (p : String) : Option String :=
  string_view p 49 (size_sub (find p ';' 49) 49)

/-! ## The types of the program -/

/-- Object types: `int` and pointers to `int`, each possibly `const`. -/
inductive Obj
  /-- The type `int` (`is_const = false`) or `const int` (`is_const = true`). -/
  | int (is_const : Bool)
  /-- A pointer to `int` or to `const int` (`pointee_const`); `is_const` says whether the
  pointer itself is `const`. -/
  | ptr (pointee_const : Bool) (is_const : Bool)
  deriving DecidableEq, Repr

/-- A type: an object type, an lvalue reference `T&` or an rvalue reference `T&&`. -/
inductive Ty
  | obj (o : Obj)
  | lref (o : Obj)
  | rref (o : Obj)
  deriving DecidableEq, Repr

/-- Value categories of expressions. -/
inductive ValueCategory
  | lvalue
  | xvalue
  | prvalue
  deriving DecidableEq, Repr

/-- The variables declared at the top of `main`. -/
inductive Var
  | x | cx | rx | rcx | rrx | rrcx | px | pcx | cpx | cpcx
  deriving DecidableEq, Repr

/-- The functions `get_value`, `get_lref` and `get_rref`. -/
inductive Fn
  | get_value | get_lref | get_rref
  deriving DecidableEq, Repr

/-- The expressions that occur in `main`. -/
inductive Expr
  /-- An unparenthesized id-expression such as `x`. -/
  | id (v : Var)
  /-- A parenthesized expression `(e)`. -/
  | paren (e : Expr)
  /-- The call `std::move(e)`. -/
  | move (e : Expr)
  /-- The literal `42`. -/
  | lit42
  /-- A call `f()` of one of the three functions. -/
  | call (f : Fn)
  deriving DecidableEq, Repr

/-- Top-level `const` removed. -/
def Obj.unqual : Obj → Obj
  | .int _ => .int false
  | .ptr pc _ => .ptr pc false

/-- Top-level `const` added. -/
def Obj.add_const : Obj → Obj
  | .int _ => .int true
  | .ptr pc _ => .ptr pc true

/-- Whether the object type is `const` at top level. -/
def Obj.is_top_const : Obj → Bool
  | .int c => c
  | .ptr _ c => c

/-- The type referred to (`std::remove_reference_t`). -/
def Ty.referred : Ty → Obj
  | .obj o => o
  | .lref o => o
  | .rref o => o

/-- The declared type of each variable (lines 35 to 45 of `main.cpp`). -/
def Var.decl : Var → Ty
  | .x => .obj (.int false)          -- int x = 42;
  | .cx => .obj (.int true)          -- const int cx = 42;
  | .rx => .lref (.int false)        -- int& rx = x;
  | .rcx => .lref (.int true)        -- const int& rcx = x;
  | .rrx => .rref (.int false)       -- int&& rrx = std::move(x);
  | .rrcx => .rref (.int true)       -- const int&& rrcx = 42;
  | .px => .obj (.ptr false false)   -- int* px = &x;
  | .pcx => .obj (.ptr true false)   -- const int* pcx = &x;
  | .cpx => .obj (.ptr false true)   -- int* const cpx = &x;
  | .cpcx => .obj (.ptr true true)   -- const int* const cpcx = &x;

/-- The declared return type of each function (lines 25 to 31 of `main.cpp`). -/
def Fn.ret : Fn → Ty
  | .get_value => .obj (.int false)  -- int get_value()
  | .get_lref => .lref (.int false)  -- int& get_lref()
  | .get_rref => .rref (.int false)  -- int&& get_rref()

/-- The type and value category of an expression. A name is an lvalue of the type it refers
to, `std::move` yields an xvalue, a literal is a prvalue, and a call is an lvalue, an xvalue
or a prvalue as the function returns `T&`, `T&&` or `T`. -/
def Expr.type_cat : Expr → Obj × ValueCategory
  | .id v => (v.decl.referred, .lvalue)
  | .paren e => e.type_cat
  | .move e => (e.type_cat.1, .xvalue)
  | .lit42 => (.int false, .prvalue)
  | .call f =>
    match f.ret with
    | .obj o => (o.unqual, .prvalue)
    | .lref o => (o, .lvalue)
    | .rref o => (o, .xvalue)

/-- The type `decltype(e)`. On an unparenthesized id-expression it is the declared type;
otherwise it follows the value category: lvalue gives `T&`, xvalue `T&&`, prvalue `T`. -/
def decltype : Expr → Ty
  | .id v => v.decl
  | e =>
    match e.type_cat with
    | (o, .lvalue) => .lref o
    | (o, .xvalue) => .rref o
    | (o, .prvalue) => .obj o

/-- The type of `v` in `auto v = e`: references and top-level cv-qualifiers are stripped. -/
def auto_val (e : Expr) : Ty :=
  .obj e.type_cat.1.unqual

/-- The type of `v` in `auto& v = e`: const is preserved; an rvalue of non-const type cannot
bind and the declaration is ill-formed (`none`). -/
def auto_lref (e : Expr) : Option Ty :=
  match e.type_cat with
  | (o, .lvalue) => some (.lref o)
  | (o, _) => if o.is_top_const then some (.lref o) else none

/-- The type of `v` in `const auto& v = e`: binds to anything. -/
def const_auto_lref (e : Expr) : Ty :=
  .lref e.type_cat.1.add_const

/-- The type of `v` in `auto&& v = e`: a forwarding reference, `T&` for an lvalue and `T&&`
for an rvalue. -/
def auto_fwd (e : Expr) : Ty :=
  match e.type_cat with
  | (o, .lvalue) => .lref o
  | (o, _) => .rref o

/-- The type of `v` in `decltype(auto) v = e`: the type `decltype(e)`; the declaration is
ill-formed (`none`) when that is an rvalue reference and `e` is an lvalue, which cannot bind
to it. -/
def decltype_auto (e : Expr) : Option Ty :=
  match decltype e, e.type_cat.2 with
  | .rref _, .lvalue => none
  | T, _ => some T

/-- The type of `v` in `auto* v = e`: `e` must be a pointer; the pointee keeps its const and
the new pointer is not const. -/
def auto_ptr (e : Expr) : Option Ty :=
  match e.type_cat.1 with
  | .ptr pc _ => some (.obj (.ptr pc false))
  | .int _ => none

/-- The type of `v` in `const auto* v = e`: a non-const pointer to the const pointee. -/
def const_auto_ptr (e : Expr) : Option Ty :=
  match e.type_cat.1 with
  | .ptr _ _ => some (.obj (.ptr true false))
  | .int _ => none

/-- The type of `v` in `auto* const v = e`: a const pointer, the pointee keeps its const. -/
def auto_ptr_const (e : Expr) : Option Ty :=
  match e.type_cat.1 with
  | .ptr pc _ => some (.obj (.ptr pc true))
  | .int _ => none

/-! ## The toolchain -/

/-- The branch of the `#if defined(__clang__)` / `#elif defined(__GNUC__)` / `#else` chain
that the toolchain selects. -/
inductive Branch
  | clang
  | gnuc
  | other
  deriving DecidableEq, Repr

/-- What the program reads from its toolchain: the preprocessor branch and the values of the
macros `__clang_major__`, `__clang_minor__`, `__GNUC__`, `__GNUC_MINOR__`, `__cplusplus`. -/
structure Toolchain where
  branch : Branch
  clang_major : Nat
  clang_minor : Nat
  GNUC : Nat
  GNUC_MINOR : Nat
  cplusplus : Nat

/-- Modelled from the spec: the toolchain's rendering of a type is not part of the source.
Clang spells the object types `int`, `const int`, `int *`, `const int *`, `int *const`,
`const int *const`. -/
def Obj.spell_clang : Obj → String
  | .int c => if c then "const int" else "int"
  | .ptr pc c => (if pc then "const int" else "int") ++ " *" ++ (if c then "const" else "")

/-- Modelled from the spec: the toolchain's rendering of a type is not part of the source.
Clang spells a reference by adding ` &` or ` &&` (no blank after a `*`). -/
def Ty.spell_clang : Ty → String
  | .obj o => o.spell_clang
  | .lref o => o.spell_clang ++ (if o matches .ptr _ false then "" else " ") ++ "&"
  | .rref o => o.spell_clang ++ (if o matches .ptr _ false then "" else " ") ++ "&&"

/-- Modelled from the spec: the toolchain's rendering of a type is not part of the source.
GCC spells the object types `int`, `const int`, `int*`, `const int*`, `int* const`,
`const int* const`. -/
def Obj.spell_gcc : Obj → String
  | .int c => if c then "const int" else "int"
  | .ptr pc c => (if pc then "const int" else "int") ++ "*" ++ (if c then " const" else "")

/-- Modelled from the spec: the toolchain's rendering of a type is not part of the source.
GCC spells a reference by adding `&` or `&&`, as in `const int&`. -/
def Ty.spell_gcc : Ty → String
  | .obj o => o.spell_gcc
  | .lref o => o.spell_gcc ++ "&"
  | .rref o => o.spell_gcc ++ "&&"

/-- Modelled from the spec: the compiler-provided constant `__PRETTY_FUNCTION__` inside
`type_name<T>()` is not part of the source. On Clang it is the signature
`std::string_view type_name() [T = ...]` around Clang's spelling of `T`. -/
def PRETTY_FUNCTION_clang (T : Ty) : String :=
  "std::string_view type_name() [T = " ++ T.spell_clang ++ "]"

/-- Modelled from the spec: the compiler-provided constant `__PRETTY_FUNCTION__` inside
`type_name<T>()` is not part of the source. On GCC it is the signature
`constexpr std::string_view type_name() [with T = ...; std::string_view = ...]` around
GCC's spelling of `T`. -/
def PRETTY_FUNCTION_gcc (T : Ty) : String :=
  "constexpr std::string_view type_name() [with T = " ++ T.spell_gcc
    ++ "; std::string_view = std::basic_string_view<char>]"

/-- The function template `type_name<T>()` on each preprocessor branch. -/
def type_name (b : Branch) (T : Ty) : Option String :=
  match b with
  | .clang => type_name_clang (PRETTY_FUNCTION_clang T)
  | .gnuc => type_name_gcc (PRETTY_FUNCTION_gcc T)
  | .other => some "unknown"

/-! ## Standard output -/

/-- One operand of `operator<<` on `std::cout`: a string literal, an integer macro, or a call
`type_name<T>()`. The type is `none` when the declaration that introduces it is ill-formed. -/
inductive Item
  | str (s : String)
  | num (n : Nat)
  | type_name (T : Option Ty)

/-- The operand is a call `type_name<T>()`. -/
def Item.is_type_name : Item → Bool
  | .type_name _ => true
  | _ => false

/-- The text an operand contributes to standard output. -/
def Item.render (b : Branch) : Item → Option String
  | .str s => some s
  | .num n => some (toString n)
  | .type_name T => T.bind (TypesZoo.type_name b)

/-- The statement `std::cout << s;` for a string literal `s`. -/
def cout (s : String) : List Item := [.str s]

/-- The macro `PRINT_ROW(expr, type)`:
`std::cout << "| (backtick)" << expr << "(backtick) | (backtick)" << type_name<type>()
<< "(backtick) |" << std::endl`. -/
def PRINT_ROW (expr : String) (type : Option Ty) : List Item :=
  [.str "| `", .str expr, .str "` | `", .type_name type, .str "` |", .str "\n"]

/-- The output statements of `main` before Section 1: title, compiler and language standard. -/
def preamble (tc : Toolchain) : List (List Item) := [
  cout "# C++ Types Zoo\n\n",
  cout "A comprehensive exploration of `auto` and `decltype` type deduction.\n\n",
  cout "**Compiler:** ",
  match tc.branch with
  | .clang => [.str "Clang ", .num tc.clang_major, .str ".", .num tc.clang_minor]
  | .gnuc => [.str "GCC ", .num tc.GNUC, .str ".", .num tc.GNUC_MINOR]
  | .other => cout "Unknown",
  cout "\n\n",
  [.str "**C++ Standard:** ", .num tc.cplusplus, .str "\n\n"]]

/-- Section 1 of `main`: the base variables. -/
def section1 : List (List Item) := [
  cout "## 1. Base Variable Types\n\n",
  cout "| Variable | Declared Type |\n",
  cout "|----------|---------------|\n",
  PRINT_ROW "x" (decltype (.id .x)),
  PRINT_ROW "cx" (decltype (.id .cx)),
  PRINT_ROW "rx" (decltype (.id .rx)),
  PRINT_ROW "rcx" (decltype (.id .rcx)),
  PRINT_ROW "rrx" (decltype (.id .rrx)),
  PRINT_ROW "rrcx" (decltype (.id .rrcx)),
  PRINT_ROW "px" (decltype (.id .px)),
  PRINT_ROW "pcx" (decltype (.id .pcx)),
  PRINT_ROW "cpx" (decltype (.id .cpx)),
  PRINT_ROW "cpcx" (decltype (.id .cpcx)),
  cout "\n"]

/-- Section 2 of `main`: `decltype` on expressions. -/
def section2 : List (List Item) := [
  cout "## 2. decltype on Expressions\n\n",
  cout "### 2.1 decltype on Variables (id-expressions)\n\n",
  cout "When `decltype` is applied to an **unparenthesized** id-expression, it yields the **declared type**.\n\n",
  cout "| Expression | Type |\n",
  cout "|------------|------|\n",
  PRINT_ROW "decltype(x)" (decltype (.id .x)),
  PRINT_ROW "decltype(cx)" (decltype (.id .cx)),
  PRINT_ROW "decltype(rx)" (decltype (.id .rx)),
  PRINT_ROW "decltype(rcx)" (decltype (.id .rcx)),
  PRINT_ROW "decltype(rrx)" (decltype (.id .rrx)),
  PRINT_ROW "decltype(rrcx)" (decltype (.id .rrcx)),
  cout "\n",
  cout "### 2.2 decltype on Parenthesized Expressions\n\n",
  cout "When `decltype` is applied to a **parenthesized** expression `(expr)`, it considers the **value category**:\n",
  cout "- **lvalue** → `T&`\n",
  cout "- **xvalue** → `T&&`\n",
  cout "- **prvalue** → `T`\n\n",
  cout "| Expression | Type | Why |\n",
  cout "|------------|------|-----|\n",
  [.str "| `decltype((x))` | `", .type_name (decltype (.paren (.id .x))), .str "` | x is lvalue |\n"],
  [.str "| `decltype((cx))` | `", .type_name (decltype (.paren (.id .cx))), .str "` | cx is lvalue |\n"],
  [.str "| `decltype((rx))` | `", .type_name (decltype (.paren (.id .rx))), .str "` | rx is lvalue |\n"],
  [.str "| `decltype((rrx))` | `", .type_name (decltype (.paren (.id .rrx))), .str "` | rrx is lvalue! |\n"],
  [.str "| `decltype((std::move(x)))` | `", .type_name (decltype (.paren (.move (.id .x)))), .str "` | xvalue |\n"],
  [.str "| `decltype((42))` | `", .type_name (decltype (.paren .lit42)), .str "` | prvalue |\n"],
  [.str "| `decltype((get_value()))` | `", .type_name (decltype (.paren (.call .get_value))), .str "` | prvalue |\n"],
  [.str "| `decltype((get_lref()))` | `", .type_name (decltype (.paren (.call .get_lref))), .str "` | lvalue |\n"],
  [.str "| `decltype((get_rref()))` | `", .type_name (decltype (.paren (.call .get_rref))), .str "` | xvalue |\n"],
  cout "\n"]

/-- Section 3 of `main`: `auto` type deduction. -/
def section3 : List (List Item) := [
  cout "## 3. auto Type Deduction\n\n",
  cout "### 3.1 Plain `auto` (strips references and top-level cv-qualifiers)\n\n",
  cout "| Declaration | Deduced Type |\n",
  cout "|-------------|-------------|\n",
  PRINT_ROW "auto v = x" (auto_val (.id .x)),
  PRINT_ROW "auto v = cx" (auto_val (.id .cx)),
  PRINT_ROW "auto v = rx" (auto_val (.id .rx)),
  PRINT_ROW "auto v = rcx" (auto_val (.id .rcx)),
  PRINT_ROW "auto v = rrx" (auto_val (.id .rrx)),
  PRINT_ROW "auto v = std::move(x)" (auto_val (.move (.id .x))),
  PRINT_ROW "auto v = get_value()" (auto_val (.call .get_value)),
  PRINT_ROW "auto v = get_lref()" (auto_val (.call .get_lref)),
  PRINT_ROW "auto v = get_rref()" (auto_val (.call .get_rref)),
  cout "\n",
  cout "### 3.2 `auto&` (lvalue reference, preserves const)\n\n",
  cout "| Declaration | Deduced Type |\n",
  cout "|-------------|-------------|\n",
  PRINT_ROW "auto& v = x" (auto_lref (.id .x)),
  PRINT_ROW "auto& v = cx" (auto_lref (.id .cx)),
  PRINT_ROW "auto& v = rx" (auto_lref (.id .rx)),
  PRINT_ROW "auto& v = rcx" (auto_lref (.id .rcx)),
  PRINT_ROW "auto& v = rrx" (auto_lref (.id .rrx)),
  PRINT_ROW "auto& v = get_lref()" (auto_lref (.call .get_lref)),
  cout "\n",
  cout "**Note:** `auto& v = std::move(x)`, `auto& v = get_value()`, `auto& v = get_rref()` would be **errors** (can't bind lvalue ref to rvalue).\n\n",
  cout "### 3.3 `const auto&` (extends lifetime of temporaries)\n\n",
  cout "| Declaration | Deduced Type |\n",
  cout "|-------------|-------------|\n",
  PRINT_ROW "const auto& v = x" (const_auto_lref (.id .x)),
  PRINT_ROW "const auto& v = cx" (const_auto_lref (.id .cx)),
  PRINT_ROW "const auto& v = rx" (const_auto_lref (.id .rx)),
  PRINT_ROW "const auto& v = std::move(x)" (const_auto_lref (.move (.id .x))),
  PRINT_ROW "const auto& v = get_value()" (const_auto_lref (.call .get_value)),
  PRINT_ROW "const auto& v = 42" (const_auto_lref (.lit42)),
  cout "\n",
  cout "### 3.4 `auto&&` (forwarding/universal reference)\n\n",
  cout "| Declaration | Deduced Type | Why |\n",
  cout "|-------------|-------------|-----|\n",
  [.str "| `auto&& v = x` | `", .type_name (auto_fwd (.id .x)), .str "` | x is lvalue |\n"],
  [.str "| `auto&& v = cx` | `", .type_name (auto_fwd (.id .cx)), .str "` | cx is lvalue |\n"],
  [.str "| `auto&& v = rx` | `", .type_name (auto_fwd (.id .rx)), .str "` | rx is lvalue |\n"],
  [.str "| `auto&& v = rcx` | `", .type_name (auto_fwd (.id .rcx)), .str "` | rcx is lvalue |\n"],
  [.str "| `auto&& v = rrx` | `", .type_name (auto_fwd (.id .rrx)), .str "` | rrx is lvalue! |\n"],
  [.str "| `auto&& v = std::move(x)` | `", .type_name (auto_fwd (.move (.id .x))), .str "` | xvalue |\n"],
  [.str "| `auto&& v = get_value()` | `", .type_name (auto_fwd (.call .get_value)), .str "` | prvalue |\n"],
  [.str "| `auto&& v = get_lref()` | `", .type_name (auto_fwd (.call .get_lref)), .str "` | lvalue |\n"],
  [.str "| `auto&& v = get_rref()` | `", .type_name (auto_fwd (.call .get_rref)), .str "` | xvalue |\n"],
  [.str "| `auto&& v = 42` | `", .type_name (auto_fwd (.lit42)), .str "` | prvalue |\n"],
  cout "\n"]

/-- Section 4 of `main`: `decltype(auto)`. -/
def section4 : List (List Item) := [
  cout "## 4. `decltype(auto)`\n\n",
  cout "Preserves the **exact type** including references and cv-qualifiers.\n\n",
  cout "| Declaration | Deduced Type | Why |\n",
  cout "|-------------|-------------|-----|\n",
  -- Without parentheses - uses id-expression rules
  [.str "| `decltype(auto) v = x` | `", .type_name (decltype_auto (.id .x)), .str "` | id-expression → declared type |\n"],
  [.str "| `decltype(auto) v = cx` | `", .type_name (decltype_auto (.id .cx)), .str "` | id-expression → declared type |\n"],
  [.str "| `decltype(auto) v = std::move(x)` | `", .type_name (decltype_auto (.move (.id .x))), .str "` | expression returns int&& |\n"],
  -- With parentheses - uses expression rules (lvalue → T&)
  [.str "| `decltype(auto) v = (x)` | `", .type_name (decltype_auto (.paren (.id .x))), .str "` | (x) is lvalue → adds & |\n"],
  [.str "| `decltype(auto) v = (cx)` | `", .type_name (decltype_auto (.paren (.id .cx))), .str "` | (cx) is lvalue → adds const& |\n"],
  cout "\n",
  cout "**Warning:** `decltype(auto) v = rrx;` would be an **error** because `rrx` has declared type `int&&`, but `rrx` itself is an lvalue and can't bind to `int&&`.\n\n"]

/-- Section 5 of `main`: pointers. -/
def section5 : List (List Item) := [
  cout "## 5. Pointers with `auto`\n\n",
  cout "| Declaration | Deduced Type | Note |\n",
  cout "|-------------|-------------|------|\n",
  [.str "| `auto v = px` | `", .type_name (auto_val (.id .px)), .str "` | |\n"],
  [.str "| `auto v = pcx` | `", .type_name (auto_val (.id .pcx)), .str "` | pointee const preserved |\n"],
  [.str "| `auto v = cpx` | `", .type_name (auto_val (.id .cpx)), .str "` | top-level const stripped |\n"],
  [.str "| `auto v = cpcx` | `", .type_name (auto_val (.id .cpcx)), .str "` | top-level const stripped |\n"],
  [.str "| `auto* v = px` | `", .type_name (auto_ptr (.id .px)), .str "` | |\n"],
  [.str "| `auto* v = pcx` | `", .type_name (auto_ptr (.id .pcx)), .str "` | pointee const preserved |\n"],
  [.str "| `const auto* v = px` | `", .type_name (const_auto_ptr (.id .px)), .str "` | adds pointee const |\n"],
  [.str "| `auto* const v = px` | `", .type_name (auto_ptr_const (.id .px)), .str "` | pointer is const |\n"],
  cout "\n"]

/-- Section 6 of `main`: the value categories summary. -/
def section6 : List (List Item) := [
  cout "## 6. Value Categories Reference\n\n",
  cout "```\n",
  cout "          expression\n",
  cout "          /        \\\n",
  cout "      glvalue      rvalue\n",
  cout "      /     \\     /     \\\n",
  cout "   lvalue   xvalue   prvalue\n",
  cout "```\n\n",
  cout "| Category | Has Identity | Can Move From | Examples |\n",
  cout "|----------|--------------|---------------|----------|\n",
  cout "| **lvalue** | Yes | No | `x`, `*p`, `a[n]`, `++i` |\n",
  cout "| **xvalue** | Yes | Yes | `std::move(x)`, `a[n]` where a is rvalue |\n",
  cout "| **prvalue** | No | Yes | `42`, `x + y`, function returning by value |\n",
  cout "\n"]

/-- Section 7 of `main`: the key insights. -/
def section7 : List (List Item) := [
  cout "## 7. Key Insights\n\n",
  cout "1. **`auto` strips top-level const and references** — it always creates a new copy\n",
  cout "2. **`auto&` preserves const** but requires an lvalue\n",
  cout "3. **`auto&&` is a forwarding reference** — binds to anything, preserves value category\n",
  cout "4. **`decltype(var)` returns declared type** of the variable\n",
  cout "5. **`decltype((var))` adds reference** based on value category (lvalue → `T&`)\n",
  cout "6. **`decltype(auto)` uses decltype rules** on the initializer expression\n",
  cout "7. **Named rvalue references are lvalues!** — `rrx` in `int&& rrx = ...` is an lvalue\n",
  cout "8. **`const auto&` extends lifetime** of temporaries\n",
  cout "9. **`auto*` preserves pointee const** but `auto` strips top-level pointer const\n\n"]

/-- Section 8 of `main`: the common gotchas. -/
def section8 : List (List Item) := [
  cout "## 8. Common Gotchas\n\n",
  cout "### Named rvalue references are lvalues\n\n",
  cout "```cpp\n",
  cout "int&& rrx = std::move(x);  // rrx has type int&&\n",
  cout "auto&& v = rrx;            // but rrx is an lvalue! v is int&\n",
  cout "```\n\n",
  cout "### decltype with parentheses\n\n",
  cout "```cpp\n",
  cout "int x = 42;\n",
  cout "decltype(x)   a;  // int\n",
  cout "decltype((x)) b = x;  // int& (dangerous: returns reference to local!)\n",
  cout "```\n\n",
  cout "### auto strips const from the thing being copied\n\n",
  cout "```cpp\n",
  cout "const int cx = 42;\n",
  cout "auto v = cx;  // v is int, not const int\n",
  cout "```\n\n"]

/-- The last two output statements of `main`. -/
def footer : List (List Item) := [
  cout "---\n",
  cout "*Generated by cpp-types-zoo*\n"]

/-- Every operand that `main` hands to `std::cout`, in program order. -/
def main_stream (tc : Toolchain) : List Item :=
  (preamble tc ++ section1 ++ section2 ++ section3 ++ section4 ++ section5 ++ section6
    ++ section7 ++ section8 ++ footer).flatten

/-- The texts written for a sequence of operands, in order; `none` when the behaviour of
one of them is undefined. -/
def write_all (b : Branch) : List Item → Option (List String)
  | [] => some []
  | it :: rest =>
    match it.render b, write_all b rest with
    | some s, some ss => some (s :: ss)
    | _, _ => none

/-- Concatenation of the written texts. -/
def concat : List String → String
  | [] => ""
  | s :: ss => s ++ concat ss

/-- The program: what `main` writes to standard output, and its return value. -/
def main (tc : Toolchain) : Option (String × Int) :=
  match write_all tc.branch (main_stream tc) with
  | some written => some (concat written, 0)
  | none => none

/-! ## Reading the emitted document -/

/-- The scan that cuts a text into lines: `acc` holds the characters of the current line, last
one first. Every line ends at a newline; a last line without one counts too. -/
def lines_go : List Char → List Char → List (List Char)
  | [], acc => if acc = [] then [] else [acc.reverse]
  | c :: cs, acc => if c = '\n' then acc.reverse :: lines_go cs [] else lines_go cs (c :: acc)

/-- The lines of a list of characters. -/
def lines_chars (cs : List Char) : List (List Char) := lines_go cs []

/-- The sequence of lines written to standard output. -/
def lines (out : String) : List String := (lines_chars out.data).map String.mk

/-- A table row is a line that starts with a pipe. -/
def is_row (l : String) : Bool := l.data.head? = some '|'

/-- The table of a section: the lines after the heading `h`, from the first table row up to
the next blank line. -/
def table_after (h : String) (ls : List String) : List String :=
  (((ls.dropWhile (fun l => decide (l ≠ h))).drop 1).dropWhile (fun l => !is_row l)).takeWhile
    (fun l => decide (l ≠ ""))

/-- The data rows of a table: the rows after the header row and the separator row. -/
def data_rows (table : List String) : List String := table.drop 2

/-- The pieces of a character list between occurrences of `sep`. -/
def split_on (sep : Char) : List Char → List (List Char)
  | [] => [[]]
  | c :: cs =>
    if c = sep then [] :: split_on sep cs
    else
      match split_on sep cs with
      | [] => [[c]]
      | l :: ls => (c :: l) :: ls

/-- The cells of a row: the texts between its pipes. The row `| a | b |` has the cells
`""`, `" a "`, `" b "` and `""`. -/
def cells (row : String) : List String := (split_on '|' row.data).map String.mk

/-- The backtick character. -/
def backtick : Char := Char.ofNat 96

/-- The text of a cell that holds one code span: blank, backtick, text, backtick, blank. -/
def code_span (cell : String) : Option String :=
  match cell.data with
  | ' ' :: q :: rest =>
    match rest.reverse with
    | ' ' :: q2 :: inner => if q = backtick ∧ q2 = backtick then some ⟨inner.reverse⟩ else none
    | _ => none
  | _ => none

/-- The name in the first column of a row. -/
def first_cell (row : String) : Option String := (cells row)[1]? >>= code_span

/-- The type label of a row: the code span in its second column. -/
def label (row : String) : Option String := (cells row)[2]? >>= code_span

/-- The text of the third column of a row (`Why` or `Note`). -/
def third_cell (row : String) : Option String := (cells row)[3]?

/-- The table rows of the document whose first column names `e`. -/
def rows_for (e : String) (ls : List String) : List String :=
  ls.filter (fun l => is_row l && decide (first_cell l = some e))

/-- The tables of a document: the maximal blocks of consecutive table rows. -/
def tables : List String → List (List String)
  | [] => []
  | l :: ls =>
    if is_row l then
      match ls.head?.map is_row, tables ls with
      | some true, t :: ts => (l :: t) :: ts
      | _, ts => [l] :: ts
    else tables ls

/-- A row is pipe-delimited: it starts and ends with a pipe. -/
def pipe_delimited (row : String) : Bool :=
  row.data.head? = some '|' && row.data.getLast? = some '|'

/-- A non-empty run of dashes. -/
def dash_run (cell : String) : Bool := cell ≠ "" && cell.data.all (fun c => c = '-')

/-- The row `sep` is a separator row for `header`: nothing but pipes and runs of dashes, one
run for each column of the header. -/
def separates (header sep : String) : Bool :=
  pipe_delimited sep && ((cells sep).drop 1).dropLast.all dash_run
    && (cells sep).length = (cells header).length

/-- The headers of the columns that hold type labels. -/
def type_headers : List String := [" Declared Type ", " Type ", " Deduced Type "]

/-- The cells of a table that stand in a column whose header is a type header. -/
def type_cells_of : List String → List String
  | header :: _ :: rows =>
    rows.flatMap (fun r =>
      ((cells header).zip (cells r)).filterMap
        (fun hc => if hc.1 ∈ type_headers then some hc.2 else none))
  | _ => []

/-- Every type-label cell of every table row of the document, in order. -/
def type_label_cells (ls : List String) : List String := (tables ls).flatMap type_cells_of

/-- The text `w` occurs in `s`. -/
def occurs_in (w : List Char) : List Char → Bool
  | [] => w.isPrefixOf []
  | c :: cs => w.isPrefixOf (c :: cs) || occurs_in w cs

/-- The value category that a `Why` cell names. -/
def marked (why : String) : Option ValueCategory :=
  if occurs_in "lvalue".data why.data then some .lvalue
  else if occurs_in "xvalue".data why.data then some .xvalue
  else if occurs_in "prvalue".data why.data then some .prvalue
  else none

/-- The label begins with the token `const`. -/
def begins_with_const (l : String) : Bool := "const".data.isPrefixOf l.data

/-- The label ends in a single `&`, not in `&&`. -/
def ends_in_single_amp (l : String) : Bool :=
  match l.data.reverse with
  | '&' :: '&' :: _ => false
  | '&' :: _ => true
  | _ => false

/-- The label ends in `&&`. -/
def ends_in_double_amp (l : String) : Bool :=
  match l.data.reverse with
  | '&' :: '&' :: _ => true
  | _ => false

/-- The label names no reference: it holds no `&`. -/
def no_reference (l : String) : Bool := !l.data.contains '&'

/-- The label names a const pointer: it ends in `const` and holds a `*`. -/
def const_pointer_label (l : String) : Bool :=
  "tsnoc".data.isPrefixOf l.data.reverse && l.data.contains '*'

/-! ## Auxiliary definitions for the proofs -/

/-- A table is well formed: its rows are pipe-delimited and the row after the header row is a
separator row for it. -/
def well_formed_table : List String → Bool
  | header :: sep :: rows => separates header sep && (header :: sep :: rows).all pipe_delimited
  | _ => false

/-- The label of a row agrees with the value category that its `Why` cell names: an lvalue
reference `T&` for an lvalue, `T&&` for an xvalue, no reference for a prvalue. -/
def agrees_with_why (row : String) : Bool :=
  match third_cell row >>= marked, label row with
  | some .lvalue, some l => ends_in_single_amp l
  | some .xvalue, some l => ends_in_double_amp l
  | some .prvalue, some l => no_reference l
  | _, _ => false

/-- The operands that `main` writes from Section 1 on. -/
def body_stream : List Item :=
  (section1 ++ section2 ++ section3 ++ section4 ++ section5 ++ section6
    ++ section7 ++ section8 ++ footer).flatten

/-- The text that `main` writes from Section 1 on. -/
def body_text (b : Branch) : String := concat ((write_all b body_stream).getD [])

/-- The compiler name and version that the preamble prints. -/
def banner (tc : Toolchain) : String :=
  match tc.branch with
  | .clang => "Clang " ++ toString tc.clang_major ++ "." ++ toString tc.clang_minor
  | .gnuc => "GCC " ++ toString tc.GNUC ++ "." ++ toString tc.GNUC_MINOR
  | .other => "Unknown"

/-- The lines of the preamble, for a compiler banner `c` and a language standard `s`. -/
def pre_lines (c s : String) : List String :=
  ["# C++ Types Zoo", "",
   "A comprehensive exploration of `auto` and `decltype` type deduction.", "",
   "**Compiler:** " ++ c, "",
   "**C++ Standard:** " ++ s, ""]

/-! # Theorems -/

/-! ## Lemmas on `size_t` arithmetic, `find` and `string_view` -/

theorem size_sub_of_le (a b : Nat) (hb : b ≤ a) (ha : a - b < 2 ^ 64) (hb2 : b < 2 ^ 64) :
    size_sub a b = a - b := by
  unfold size_sub
  rw [Nat.mod_eq_of_lt hb2]
  have h : a + (2 ^ 64 - b) = (a - b) + 2 ^ 64 := by omega
  rw [h, Nat.add_mod_right, Nat.mod_eq_of_lt ha]

theorem find_from_append (ch : Char) (l r : List Char) (i : Nat) (h : ch ∉ l) :
    find_from ch (l ++ ch :: r) i = i + l.length := by
  induction l generalizing i with
  | nil => simp [find_from]
  | cons c cs ih =>
    have hc : c ≠ ch := fun e => h (by simp [e])
    have hcs : ch ∉ cs := fun e => h (by simp [e])
    have e := ih (i + 1) hcs
    show find_from ch (c :: (cs ++ ch :: r)) i = i + (cs.length + 1)
    rw [find_from, if_neg hc, e]
    omega

theorem find_from_spec (ch : Char) (l : List Char) (i : Nat) :
    (ch ∉ l ∧ find_from ch l i = npos) ∨
      (∃ k, k < l.length ∧ l[k]? = some ch ∧ find_from ch l i = i + k) := by
  induction l generalizing i with
  | nil => left; simp [find_from]
  | cons c cs ih =>
    by_cases hc : c = ch
    · right; exact ⟨0, by simp, by simp [hc], by simp [find_from, hc]⟩
    · rcases ih (i + 1) with ⟨hn, he⟩ | ⟨k, hk, hget, he⟩
      · left
        refine ⟨?_, by simp [find_from, hc, he]⟩
        intro hmem
        rcases List.mem_cons.1 hmem with e | e
        · exact hc e.symm
        · exact hn e
      · right
        refine ⟨k + 1, by simp [hk], by simp [hget], ?_⟩
        rw [find_from, if_neg hc, he]
        omega

theorem string_view_middle (pre cs suf : List Char) :
    string_view ⟨pre ++ (cs ++ suf)⟩ pre.length cs.length = some ⟨cs⟩ := by
  unfold string_view lies_within
  rw [if_pos (by simp [String.length])]
  simp

theorem find_middle (pre cs rest : List Char) (ch : Char) (h : ch ∉ cs) :
    find ⟨pre ++ (cs ++ ch :: rest)⟩ ch pre.length = pre.length + cs.length := by
  unfold find
  simp only [List.drop_left]
  exact find_from_append ch cs rest pre.length h

/-- C2. On the Clang branch the signature `std::string_view type_name() [T = t]` yields
exactly `t`, and on the GCC branch the signature
`constexpr std::string_view type_name() [with T = t; std::string_view = ...]` yields exactly
`t` when `t` holds no `;`: `type_name` slices out the embedded type name. -/
theorem type_name_slices_out_embedded_name (t : String) (ht : t.length < 2 ^ 64) :
    type_name_clang ("std::string_view type_name() [T = " ++ t ++ "]") = some t ∧
    (';' ∉ t.data →
      type_name_gcc ("constexpr std::string_view type_name() [with T = " ++ t
        ++ "; std::string_view = std::basic_string_view<char>]") = some t) := by
  obtain ⟨cs⟩ := t
  have hlen : cs.length < 2 ^ 64 := ht
  constructor
  · have hp : "std::string_view type_name() [T = " ++ (⟨cs⟩ : String) ++ "]"
        = ⟨"std::string_view type_name() [T = ".data ++ (cs ++ [']'])⟩ := by
      apply String.ext; simp [String.data_append]
    have hl : (⟨"std::string_view type_name() [T = ".data ++ (cs ++ [']'])⟩ : String).length
        = cs.length + 35 := by
      simp [String.length]
    rw [hp]
    unfold type_name_clang
    rw [hl]
    have h1 : size_sub (size_sub (cs.length + 35) 34) 1 = cs.length := by
      unfold size_sub; omega
    rw [h1]
    exact string_view_middle "std::string_view type_name() [T = ".data cs [']']
  · intro hsemi
    have hsemi' : ';' ∉ cs := hsemi
    have hp : "constexpr std::string_view type_name() [with T = " ++ (⟨cs⟩ : String)
        ++ "; std::string_view = std::basic_string_view<char>]"
        = ⟨"constexpr std::string_view type_name() [with T = ".data
          ++ (cs ++ ';' :: " std::string_view = std::basic_string_view<char>]".data)⟩ := by
      apply String.ext; simp [String.data_append]
    rw [hp]
    unfold type_name_gcc
    have hf := find_middle "constexpr std::string_view type_name() [with T = ".data cs
      " std::string_view = std::basic_string_view<char>]".data ';' hsemi'
    have h49 : "constexpr std::string_view type_name() [with T = ".data.length = 49 := by
      decide
    rw [h49] at hf
    have h1 : size_sub (49 + cs.length) 49 = 49 + cs.length - 49 := by
      exact size_sub_of_le _ _ (by omega) (by omega) (by norm_num)
    rw [hf, h1, show 49 + cs.length - 49 = cs.length by omega]
    exact string_view_middle "constexpr std::string_view type_name() [with T = ".data cs _

/-- Witness for C2: the name `const int&`. -/
theorem type_name_slices_out_embedded_name_witness :
    "const int&".length < 2 ^ 64 ∧
    type_name_clang "std::string_view type_name() [T = const int&]" = some "const int&" ∧
    type_name_gcc ("constexpr std::string_view type_name() [with T = const int&"
      ++ "; std::string_view = std::basic_string_view<char>]") = some "const int&" :=
  ⟨by decide, (type_name_slices_out_embedded_name "const int&" (by decide)).1,
    (type_name_slices_out_embedded_name "const int&" (by decide)).2 (by decide)⟩

theorem mem_drop_of_getElem? (l : List Char) (c : Char) (n i : Nat) (hi : n ≤ i)
    (h : l[i]? = some c) : c ∈ l.drop n := by
  have e : (l.drop n)[i - n]? = some c := by
    rw [List.getElem?_drop, show n + (i - n) = i by omega, h]
  exact List.getElem?_mem e

/-- C10. For a signature `p` whose size is a valid `size_t` below `npos`: on the GCC branch
the range starting at index 49 with length `find(';', 49) - 49` (unsigned) lies within `p` if
and only if `p` holds a `;` at some index at or after 49; on the Clang branch the range
starting at index 34 with length `size(p) - 34 - 1` (unsigned, the same as `size(p) - 35`)
lies within `p` if and only if `size(p) ≥ 35`. These ranges are the ones that decide whether
`type_name` is defined. -/
theorem slice_within_iff_expected_shape (p : String) (h : p.length < npos) :
    (lies_within p 49 (size_sub (find p ';' 49) 49) ↔ ∃ i, 49 ≤ i ∧ p.data[i]? = some ';') ∧
    (lies_within p 34 (size_sub (size_sub p.length 34) 1) ↔ 35 ≤ p.length) ∧
    ((type_name_gcc p).isSome = true ↔ lies_within p 49 (size_sub (find p ';' 49) 49)) ∧
    ((type_name_clang p).isSome = true ↔
      lies_within p 34 (size_sub (size_sub p.length 34) 1)) ∧
    size_sub (size_sub p.length 34) 1 = size_sub p.length 35 := by
  have hlen : p.data.length < 2 ^ 64 - 1 := h
  refine ⟨?_, ?_, ?_, ?_, ?_⟩
  · unfold lies_within find
    have hl : p.length = p.data.length := rfl
    rw [hl]
    rcases find_from_spec ';' (p.data.drop 49) 49 with ⟨hn, he⟩ | ⟨k, hk, hget, he⟩
    · rw [he]
      have hs : size_sub npos 49 = 2 ^ 64 - 50 := by decide
      rw [hs]
      constructor
      · intro h'; omega
      · rintro ⟨i, hi, hget⟩
        exact absurd (mem_drop_of_getElem? p.data ';' 49 i hi hget) hn
    · rw [he]
      have hk' : k < p.data.length - 49 := by simpa using hk
      have hs : size_sub (49 + k) 49 = 49 + k - 49 :=
        size_sub_of_le (49 + k) 49 (by omega) (by omega) (by norm_num)
      rw [hs]
      constructor
      · intro _
        refine ⟨49 + k, by omega, ?_⟩
        rw [← List.getElem?_drop]; exact hget
      · intro _; omega
  · unfold lies_within size_sub
    omega
  · unfold type_name_gcc string_view
    split <;> simp_all
  · unfold type_name_clang string_view
    split <;> simp_all
  · unfold size_sub
    omega

/-- Witness for C10: the GCC signature of `type_name<int>()`. -/
theorem slice_within_iff_expected_shape_witness :
    (PRETTY_FUNCTION_gcc (.obj (.int false))).length < npos ∧
    ((lies_within (PRETTY_FUNCTION_gcc (.obj (.int false))) 49
        (size_sub (find (PRETTY_FUNCTION_gcc (.obj (.int false))) ';' 49) 49) ↔
      ∃ i, 49 ≤ i ∧ (PRETTY_FUNCTION_gcc (.obj (.int false))).data[i]? = some ';') ∧
     (lies_within (PRETTY_FUNCTION_gcc (.obj (.int false))) 34
        (size_sub (size_sub (PRETTY_FUNCTION_gcc (.obj (.int false))).length 34) 1) ↔
      35 ≤ (PRETTY_FUNCTION_gcc (.obj (.int false))).length)) :=
  ⟨by decide, (slice_within_iff_expected_shape _ (by decide)).1,
    (slice_within_iff_expected_shape _ (by decide)).2.1⟩

/-! ## The stream, the written text and its lines -/

theorem write_all_append (b : Branch) (xs ys : List Item) (a c : List String)
    (hx : write_all b xs = some a) (hy : write_all b ys = some c) :
    write_all b (xs ++ ys) = some (a ++ c) := by
  induction xs generalizing a with
  | nil => simp [write_all] at hx; subst hx; simpa using hy
  | cons it rest ih =>
    rw [List.cons_append, write_all]
    rw [write_all] at hx
    cases hr : it.render b with
    | none => simp [hr] at hx
    | some s =>
      cases hw : write_all b rest with
      | none => simp [hr, hw] at hx
      | some ss =>
        simp only [hr, hw, Option.some.injEq] at hx
        subst hx
        simp [ih ss hw]

theorem concat_append (a c : List String) : concat (a ++ c) = concat a ++ concat c := by
  induction a with
  | nil => simp [concat]
  | cons s ss ih => simp [concat, ih, String.append_assoc]

theorem body_written (b : Branch) : (write_all b body_stream).isSome = true := by
  cases b <;> decide!

theorem main_stream_eq (tc : Toolchain) :
    main_stream tc = (preamble tc).flatten ++ body_stream := by
  simp [main_stream, body_stream, List.flatten_append, List.append_assoc]

theorem digit_not_newline : ∀ d, d < 10 → Nat.digitChar d ≠ '\n' := by decide

theorem toDigitsCore_no_newline (fuel n : Nat) (ds : List Char) (h : '\n' ∉ ds) :
    '\n' ∉ Nat.toDigitsCore 10 fuel n ds := by
  induction fuel generalizing n ds with
  | zero => simpa [Nat.toDigitsCore] using h
  | succ f ih =>
    have hd : '\n' ∉ Nat.digitChar (n % 10) :: ds := by
      intro hm
      rcases List.mem_cons.1 hm with e | e
      · exact digit_not_newline (n % 10) (Nat.mod_lt _ (by decide)) e.symm
      · exact h e
    rw [Nat.toDigitsCore]
    split
    · exact hd
    · exact ih _ _ hd

theorem toString_no_newline (n : Nat) : '\n' ∉ (toString n).data := by
  show '\n' ∉ Nat.toDigitsCore 10 (n + 1) n []
  exact toDigitsCore_no_newline _ _ _ (by simp)

theorem lines_go_line (l rest acc : List Char) (h : '\n' ∉ l) :
    lines_go (l ++ '\n' :: rest) acc = (acc.reverse ++ l) :: lines_go rest [] := by
  induction l generalizing acc with
  | nil => simp [lines_go]
  | cons c cs ih =>
    have hc : c ≠ '\n' := fun e => h (by simp [e])
    have hcs : '\n' ∉ cs := fun e => h (by simp [e])
    show lines_go (c :: (cs ++ '\n' :: rest)) acc = _
    rw [lines_go, if_neg hc, ih _ hcs]
    simp

theorem lines_line (l rest : List Char) (h : '\n' ∉ l) :
    lines ⟨l ++ '\n' :: rest⟩ = ⟨l⟩ :: lines ⟨rest⟩ := by
  simp [lines, lines_chars, lines_go_line l rest [] h]

theorem lines_blank (rest : List Char) : lines ⟨'\n' :: rest⟩ = "" :: lines ⟨rest⟩ := by
  have := lines_line [] rest (by simp)
  simpa using this

theorem banner_no_newline (tc : Toolchain) : '\n' ∉ (banner tc).data := by
  unfold banner
  cases tc.branch <;>
    simp [String.data_append, toString_no_newline]

theorem preamble_lines (tc : Toolchain) (rest : String) :
    ∃ w, write_all tc.branch (preamble tc).flatten = some w ∧
      lines (concat w ++ rest) =
        pre_lines (banner tc) (toString tc.cplusplus) ++ lines rest := by
  have hb := banner_no_newline tc
  have hn := toString_no_newline tc.cplusplus
  have key : lines (⟨"# C++ Types Zoo".data ++ '\n' :: '\n' ::
      ("A comprehensive exploration of `auto` and `decltype` type deduction.".data ++
        '\n' :: '\n' :: (("**Compiler:** ".data ++ (banner tc).data) ++ '\n' :: '\n' ::
          (("**C++ Standard:** ".data ++ (toString tc.cplusplus).data) ++
            '\n' :: '\n' :: rest.data)))⟩ : String)
      = pre_lines (banner tc) (toString tc.cplusplus) ++ lines rest := by
    rw [lines_line _ _ (by decide), lines_blank, lines_line _ _ (by decide), lines_blank,
      lines_line _ _ (by simp [hb]), lines_blank, lines_line _ _ (by simp [hn]), lines_blank]
    simp [pre_lines]
    refine ⟨?_, ?_⟩ <;> apply String.ext <;> simp [String.data_append]
  rcases hbr : tc.branch with _ | _ | _
  all_goals
    refine ⟨_, by simp [preamble, cout, write_all, Item.render, hbr]; rfl, ?_⟩
    rw [← key]
    congr 1
    apply String.ext
    simp [concat, banner, hbr, String.data_append]

theorem document_lines (tc : Toolchain) :
    ∃ out, main tc = some (out, 0) ∧
      lines out = pre_lines (banner tc) (toString tc.cplusplus) ++ lines (body_text tc.branch) := by
  obtain ⟨w, hw, hl⟩ := preamble_lines tc (body_text tc.branch)
  obtain ⟨wb, hwb⟩ := Option.isSome_iff_exists.1 (body_written tc.branch)
  have hbody : body_text tc.branch = concat wb := by simp [body_text, hwb]
  refine ⟨concat w ++ concat wb, ?_, ?_⟩
  · simp [main, main_stream_eq, write_all_append _ _ _ _ _ hw hwb, concat_append]
  · rw [← hbody]; exact hl

theorem pre_not_row (c s l : String) (h : l ∈ pre_lines c s) : is_row l = false := by
  simp only [pre_lines, List.mem_cons, List.mem_singleton, List.not_mem_nil, or_false] at h
  rcases h with e | e | e | e | e | e | e | e <;> subst e <;>
    rfl

theorem heading_not_in_pre (c s h : String) (hh : "##".data.isPrefixOf h.data = true) :
    h ∉ pre_lines c s := by
  intro hm
  simp only [pre_lines, List.mem_cons, List.mem_singleton, List.not_mem_nil, or_false] at hm
  rcases hm with e | e | e | e | e | e | e | e <;> subst e <;>
    first
    | exact absurd hh (by decide)
    | (rw [String.data_append] at hh; exact absurd hh (by simp [List.isPrefixOf]))

theorem dropWhile_append_of_all (p : String → Bool) (pre bl : List String)
    (h : ∀ l ∈ pre, p l = true) : (pre ++ bl).dropWhile p = bl.dropWhile p := by
  induction pre with
  | nil => rfl
  | cons a as ih =>
    rw [List.cons_append, List.dropWhile_cons, if_pos (h a (by simp))]
    exact ih (fun l hl => h l (by simp [hl]))

theorem table_after_pre (c s h : String) (bl : List String)
    (hh : "##".data.isPrefixOf h.data = true) :
    table_after h (pre_lines c s ++ bl) = table_after h bl := by
  unfold table_after
  rw [dropWhile_append_of_all]
  intro l hl
  have : l ≠ h := fun e => heading_not_in_pre c s h hh (e ▸ hl)
  simpa using this

theorem rows_for_pre (c s e : String) (bl : List String) :
    rows_for e (pre_lines c s ++ bl) = rows_for e bl := by
  unfold rows_for
  rw [List.filter_append]
  have : (pre_lines c s).filter (fun l => is_row l && decide (first_cell l = some e)) = [] := by
    rw [List.filter_eq_nil_iff]
    intro l hl
    simp [pre_not_row c s l hl]
  rw [this, List.nil_append]

theorem tables_skip (pre bl : List String) (h : ∀ l ∈ pre, is_row l = false) :
    tables (pre ++ bl) = tables bl := by
  induction pre with
  | nil => rfl
  | cons a as ih =>
    rw [List.cons_append, tables, h a (by simp)]
    simpa using ih (fun l hl => h l (by simp [hl]))

theorem tables_pre (c s : String) (bl : List String) :
    tables (pre_lines c s ++ bl) = tables bl :=
  tables_skip _ _ (pre_not_row c s)

theorem count_pre (c s h : String) (bl : List String)
    (hh : "##".data.isPrefixOf h.data = true) :
    (pre_lines c s ++ bl).count h = bl.count h := by
  rw [List.count_append, List.count_eq_zero_of_not_mem (heading_not_in_pre c s h hh),
    Nat.zero_add]

theorem getLast?_pre (c s : String) (bl : List String) (x : String)
    (h : bl.getLast? = some x) : (pre_lines c s ++ bl).getLast? = some x := by
  rw [List.getLast?_append, h]; rfl

/-- C1. On every toolchain branch `main` returns 0 and the document it writes has
`# C++ Types Zoo` as its first line and `*Generated by cpp-types-zoo*` as its last line, holds
exactly one line equal to `## 1. Base Variable Types`, and the table of that section has a
header row, a separator row and exactly 10 data rows before the next blank line. -/
theorem document_frame (tc : Toolchain) :
    ∃ out, main tc = some (out, 0) ∧
      (lines out).head? = some "# C++ Types Zoo" ∧
      (lines out).getLast? = some "*Generated by cpp-types-zoo*" ∧
      (lines out).count "## 1. Base Variable Types" = 1 ∧
      (table_after "## 1. Base Variable Types" (lines out)).take 2 =
        ["| Variable | Declared Type |", "|----------|---------------|"] ∧
      (data_rows (table_after "## 1. Base Variable Types" (lines out))).length = 10 ∧
      (data_rows (table_after "## 1. Base Variable Types" (lines out))).all is_row = true := by
  obtain ⟨out, hmain, hl⟩ := document_lines tc
  have key : ∀ b,
      (lines (body_text b)).getLast? = some "*Generated by cpp-types-zoo*" ∧
      (lines (body_text b)).count "## 1. Base Variable Types" = 1 ∧
      (table_after "## 1. Base Variable Types" (lines (body_text b))).take 2 =
        ["| Variable | Declared Type |", "|----------|---------------|"] ∧
      (data_rows (table_after "## 1. Base Variable Types" (lines (body_text b)))).length = 10 ∧
      (data_rows (table_after "## 1. Base Variable Types" (lines (body_text b)))).all is_row
        = true := by
    intro b; cases b <;> decide!
  obtain ⟨k1, k2, k3, k4, k5⟩ := key tc.branch
  refine ⟨out, hmain, ?_, ?_, ?_, ?_, ?_, ?_⟩
  · rw [hl]; rfl
  · rw [hl]; exact getLast?_pre _ _ _ _ k1
  · rw [hl, count_pre _ _ _ _ (by decide)]; exact k2
  · rw [hl, table_after_pre _ _ _ _ (by decide)]; exact k3
  · rw [hl, table_after_pre _ _ _ _ (by decide)]; exact k4
  · rw [hl, table_after_pre _ _ _ _ (by decide)]; exact k5

theorem row_not_in_pre (c s x : String) (hx : is_row x = true) : x ∉ pre_lines c s := by
  intro hm
  rw [pre_not_row c s x hm] at hx
  exact absurd hx (by decide)

theorem mem_pre_append (c s x : String) (bl : List String) (h : x ∈ bl) :
    x ∈ pre_lines c s ++ bl :=
  List.mem_append_right _ h

theorem row_not_mem_pre_append (c s x : String) (bl : List String) (hx : is_row x = true)
    (h : x ∉ bl) : x ∉ pre_lines c s ++ bl := by
  intro hm
  rcases List.mem_append.1 hm with e | e
  · exact row_not_in_pre c s x hx e
  · exact h e

theorem type_label_cells_pre (c s : String) (bl : List String) :
    type_label_cells (pre_lines c s ++ bl) = type_label_cells bl := by
  unfold type_label_cells
  rw [tables_pre]

/-- C3. On an unrecognized toolchain `type_name` returns `unknown` for every type; `main`
calls it 69 times, every type-label cell of every table row of the document (69 cells) is
the code span `unknown`, and the document is written in full: `main` reaches its final line
and returns 0. -/
theorem unknown_toolchain_degrades (tc : Toolchain) :
    (∀ T, type_name .other T = some "unknown") ∧
    (main_stream { tc with branch := .other }).countP Item.is_type_name = 69 ∧
    ∃ out, main { tc with branch := .other } = some (out, 0) ∧
      type_label_cells (lines out) = List.replicate 69 " `unknown` " ∧
      (type_label_cells (lines out)).map code_span = List.replicate 69 (some "unknown") ∧
      (lines out).getLast? = some "*Generated by cpp-types-zoo*" := by
  refine ⟨fun _ => rfl, ?_, ?_⟩
  · have hbody : body_stream.countP Item.is_type_name = 69 := by decide!
    rw [main_stream_eq, List.countP_append, hbody]
    simp [preamble, cout, Item.is_type_name]
  obtain ⟨out, hmain, hl⟩ := document_lines { tc with branch := .other }
  have key : type_label_cells (lines (body_text .other)) = List.replicate 69 " `unknown` " ∧
      (lines (body_text .other)).getLast? = some "*Generated by cpp-types-zoo*" := by
    decide!
  have hcells : type_label_cells (lines out) = List.replicate 69 " `unknown` " := by
    rw [hl, type_label_cells_pre]; exact key.1
  refine ⟨out, hmain, hcells, ?_, ?_⟩
  · rw [hcells]; decide
  · rw [hl]; exact getLast?_pre _ _ _ _ key.2

/-- C4. On every toolchain branch the row for `auto v = cx`, where `cx` is declared
`const int`, shows a type label that does not begin with `const`: plain `auto` drops the
top-level const, the type passed to `type_name` is `int`, and the Gotchas text of the
document says so. -/
theorem plain_auto_drops_const (tc : Toolchain) :
    Var.decl .cx = .obj (.int true) ∧
    auto_val (.id .cx) = .obj (.int false) ∧
    ∃ out l, main tc = some (out, 0) ∧
      rows_for "auto v = cx" (lines out) = ["| `auto v = cx` | `" ++ l ++ "` |"] ∧
      type_name tc.branch (auto_val (.id .cx)) = some l ∧
      begins_with_const l = false ∧
      "auto v = cx;  // v is int, not const int" ∈ lines out := by
  refine ⟨rfl, rfl, ?_⟩
  obtain ⟨out, hmain, hl⟩ := document_lines tc
  have key : ∀ b, ∃ l,
      rows_for "auto v = cx" (lines (body_text b)) = ["| `auto v = cx` | `" ++ l ++ "` |"] ∧
      type_name b (auto_val (.id .cx)) = some l ∧
      begins_with_const l = false ∧
      "auto v = cx;  // v is int, not const int" ∈ lines (body_text b) := by
    intro b
    cases b
    · exact ⟨"int", by decide!⟩
    · exact ⟨"int", by decide!⟩
    · exact ⟨"unknown", by decide!⟩
  obtain ⟨l, k1, k2, k3, k4⟩ := key tc.branch
  refine ⟨out, l, hmain, ?_, k2, k3, ?_⟩
  · rw [hl, rows_for_pre]; exact k1
  · rw [hl]; exact mem_pre_append _ _ _ _ k4

/-- C5, counterexample. On an unrecognized toolchain the row for `auto&& v = rrx` shows the
label `unknown`, which does not end in `&`. -/
theorem forwarding_label_on_unknown_toolchain :
    ∃ out, main ⟨.other, 0, 0, 0, 0, 201703⟩ = some (out, 0) ∧
      rows_for "auto&& v = rrx" (lines out) = ["| `auto&& v = rrx` | `unknown` | rrx is lvalue! |"] ∧
      label "| `auto&& v = rrx` | `unknown` | rrx is lvalue! |" = some "unknown" ∧
      ends_in_single_amp "unknown" = false := by
  obtain ⟨out, hmain, hl⟩ := document_lines ⟨.other, 0, 0, 0, 0, 201703⟩
  refine ⟨out, hmain, ?_, by decide!, by decide!⟩
  rw [hl, rows_for_pre]
  decide!

/-- C5, amended. On every branch the type passed to `type_name` for the row
`auto&& v = rrx` is `int&`, because the named rvalue reference `rrx` is an lvalue and the
forwarding reference collapses; on the Clang and GCC branches the label shown ends in a single
`&` and not in `&&`, and on an unrecognized toolchain it is `unknown`. -/
theorem forwarding_reference_to_named_rvalue (tc : Toolchain) :
    Var.decl .rrx = .rref (.int false) ∧
    auto_fwd (.id .rrx) = .lref (.int false) ∧
    ∃ out l, main tc = some (out, 0) ∧
      rows_for "auto&& v = rrx" (lines out) =
        ["| `auto&& v = rrx` | `" ++ l ++ "` | rrx is lvalue! |"] ∧
      type_name tc.branch (auto_fwd (.id .rrx)) = some l ∧
      ((tc.branch = .other ∧ l = "unknown") ∨
        (tc.branch ≠ .other ∧ ends_in_single_amp l = true)) ∧
      "auto&& v = rrx;            // but rrx is an lvalue! v is int&" ∈ lines out := by
  refine ⟨rfl, rfl, ?_⟩
  obtain ⟨out, hmain, hl⟩ := document_lines tc
  have key : ∀ b, ∃ l,
      rows_for "auto&& v = rrx" (lines (body_text b)) =
        ["| `auto&& v = rrx` | `" ++ l ++ "` | rrx is lvalue! |"] ∧
      type_name b (auto_fwd (.id .rrx)) = some l ∧
      ((b = .other ∧ l = "unknown") ∨ (b ≠ .other ∧ ends_in_single_amp l = true)) ∧
      "auto&& v = rrx;            // but rrx is an lvalue! v is int&" ∈ lines (body_text b) := by
    intro b
    cases b
    · exact ⟨"int &", by decide!⟩
    · exact ⟨"int&", by decide!⟩
    · exact ⟨"unknown", by decide!⟩
  obtain ⟨l, k1, k2, k3, k4⟩ := key tc.branch
  refine ⟨out, l, hmain, ?_, k2, k3, ?_⟩
  · rw [hl, rows_for_pre]; exact k1
  · rw [hl]; exact mem_pre_append _ _ _ _ k4

/-- C6, counterexample. With GCC 13.2 the row after the header row of the first table is
`|----------|---------------|`, and no line of the document is `| --- | --- |`. -/
theorem separator_row_is_not_spaced_dashes :
    ∃ out, main ⟨.gnuc, 0, 0, 13, 2, 201703⟩ = some (out, 0) ∧
      (table_after "## 1. Base Variable Types" (lines out)).take 2 =
        ["| Variable | Declared Type |", "|----------|---------------|"] ∧
      "| --- | --- |" ∉ lines out := by
  obtain ⟨out, hmain, hl⟩ := document_lines ⟨.gnuc, 0, 0, 13, 2, 201703⟩
  refine ⟨out, hmain, ?_, ?_⟩
  · rw [hl, table_after_pre _ _ _ _ (by decide)]
    decide!
  · rw [hl]
    exact row_not_mem_pre_append _ _ _ _ (by decide) (by decide!)

/-- C6, amended. On every branch the document holds ten tables; every table consists of
pipe-delimited rows and has, immediately after its header row, a separator row made only of
pipes and runs of dashes, one run for each column of the header; no line of the document is
the literal text `| --- | --- |`. -/
theorem tables_have_dash_separators (tc : Toolchain) :
    ∃ out, main tc = some (out, 0) ∧
      (tables (lines out)).length = 10 ∧
      (∀ t ∈ tables (lines out), well_formed_table t = true) ∧
      (tables (lines out)).map (fun t => t.take 2) =
        [["| Variable | Declared Type |", "|----------|---------------|"],
         ["| Expression | Type |", "|------------|------|"],
         ["| Expression | Type | Why |", "|------------|------|-----|"],
         ["| Declaration | Deduced Type |", "|-------------|-------------|"],
         ["| Declaration | Deduced Type |", "|-------------|-------------|"],
         ["| Declaration | Deduced Type |", "|-------------|-------------|"],
         ["| Declaration | Deduced Type | Why |", "|-------------|-------------|-----|"],
         ["| Declaration | Deduced Type | Why |", "|-------------|-------------|-----|"],
         ["| Declaration | Deduced Type | Note |", "|-------------|-------------|------|"],
         ["| Category | Has Identity | Can Move From | Examples |",
          "|----------|--------------|---------------|----------|"]] ∧
      "| --- | --- |" ∉ lines out := by
  obtain ⟨out, hmain, hl⟩ := document_lines tc
  have key : ∀ b,
      (tables (lines (body_text b))).length = 10 ∧
      (∀ t ∈ tables (lines (body_text b)), well_formed_table t = true) ∧
      (tables (lines (body_text b))).map (fun t => t.take 2) =
        [["| Variable | Declared Type |", "|----------|---------------|"],
         ["| Expression | Type |", "|------------|------|"],
         ["| Expression | Type | Why |", "|------------|------|-----|"],
         ["| Declaration | Deduced Type |", "|-------------|-------------|"],
         ["| Declaration | Deduced Type |", "|-------------|-------------|"],
         ["| Declaration | Deduced Type |", "|-------------|-------------|"],
         ["| Declaration | Deduced Type | Why |", "|-------------|-------------|-----|"],
         ["| Declaration | Deduced Type | Why |", "|-------------|-------------|-----|"],
         ["| Declaration | Deduced Type | Note |", "|-------------|-------------|------|"],
         ["| Category | Has Identity | Can Move From | Examples |",
          "|----------|--------------|---------------|----------|"]] ∧
      "| --- | --- |" ∉ lines (body_text b) := by
    intro b; cases b <;> decide!
  obtain ⟨k1, k2, k3, k4⟩ := key tc.branch
  refine ⟨out, hmain, ?_, ?_, ?_, ?_⟩
  · rw [hl, tables_pre]; exact k1
  · rw [hl, tables_pre]; exact k2
  · rw [hl, tables_pre]; exact k3
  · rw [hl]; exact row_not_mem_pre_append _ _ _ _ (by decide) k4

/-- C7, counterexample. On an unrecognized toolchain every row of the
`## 1. Base Variable Types` table shows the label `unknown`, not the declared type. -/
theorem base_table_on_unknown_toolchain :
    ∃ out, main ⟨.other, 0, 0, 0, 0, 201703⟩ = some (out, 0) ∧
      data_rows (table_after "## 1. Base Variable Types" (lines out)) =
        ["| `x` | `unknown` |", "| `cx` | `unknown` |", "| `rx` | `unknown` |",
         "| `rcx` | `unknown` |", "| `rrx` | `unknown` |", "| `rrcx` | `unknown` |",
         "| `px` | `unknown` |", "| `pcx` | `unknown` |", "| `cpx` | `unknown` |",
         "| `cpcx` | `unknown` |"] := by
  obtain ⟨out, hmain, hl⟩ := document_lines ⟨.other, 0, 0, 0, 0, 201703⟩
  refine ⟨out, hmain, ?_⟩
  rw [hl, table_after_pre _ _ _ _ (by decide)]
  decide!

/-- C7, amended. In the `## 1. Base Variable Types` table the rows appear in the order `x`,
`cx`, `rx`, `rcx`, `rrx`, `rrcx`, `px`, `pcx`, `cpx`, `cpcx`, each row's first cell is the
variable's name, and the type passed to `type_name` is the declared type that the comment on
the variable's declaration states. On the Clang and GCC branches the printed label is the
toolchain's spelling of that type; on an unrecognized toolchain it is `unknown`. -/
theorem base_table_shows_declared_types (tc : Toolchain) :
    [Var.x, .cx, .rx, .rcx, .rrx, .rrcx, .px, .pcx, .cpx, .cpcx].map Var.decl =
      [.obj (.int false), .obj (.int true), .lref (.int false), .lref (.int true),
       .rref (.int false), .rref (.int true), .obj (.ptr false false), .obj (.ptr true false),
       .obj (.ptr false true), .obj (.ptr true true)] ∧
    ∃ out, main tc = some (out, 0) ∧
      (data_rows (table_after "## 1. Base Variable Types" (lines out))).map first_cell =
        ["x", "cx", "rx", "rcx", "rrx", "rrcx", "px", "pcx", "cpx", "cpcx"].map some ∧
      (data_rows (table_after "## 1. Base Variable Types" (lines out))).map label =
        [Var.x, .cx, .rx, .rcx, .rrx, .rrcx, .px, .pcx, .cpx, .cpcx].map
          (fun v => type_name tc.branch (decltype (.id v))) ∧
      ((tc.branch = .gnuc ∧
          (data_rows (table_after "## 1. Base Variable Types" (lines out))).map label =
            ["int", "const int", "int&", "const int&", "int&&", "const int&&", "int*",
             "const int*", "int* const", "const int* const"].map some) ∨
        (tc.branch = .clang ∧
          (data_rows (table_after "## 1. Base Variable Types" (lines out))).map label =
            ["int", "const int", "int &", "const int &", "int &&", "const int &&", "int *",
             "const int *", "int *const", "const int *const"].map some) ∨
        (tc.branch = .other ∧
          (data_rows (table_after "## 1. Base Variable Types" (lines out))).map label =
            List.replicate 10 (some "unknown"))) := by
  refine ⟨rfl, ?_⟩
  obtain ⟨out, hmain, hl⟩ := document_lines tc
  have key : ∀ b,
      (data_rows (table_after "## 1. Base Variable Types" (lines (body_text b)))).map
          first_cell =
        ["x", "cx", "rx", "rcx", "rrx", "rrcx", "px", "pcx", "cpx", "cpcx"].map some ∧
      (data_rows (table_after "## 1. Base Variable Types" (lines (body_text b)))).map label =
        [Var.x, .cx, .rx, .rcx, .rrx, .rrcx, .px, .pcx, .cpx, .cpcx].map
          (fun v => type_name b (decltype (.id v))) ∧
      ((b = .gnuc ∧
          (data_rows (table_after "## 1. Base Variable Types" (lines (body_text b)))).map
              label =
            ["int", "const int", "int&", "const int&", "int&&", "const int&&", "int*",
             "const int*", "int* const", "const int* const"].map some) ∨
        (b = .clang ∧
          (data_rows (table_after "## 1. Base Variable Types" (lines (body_text b)))).map
              label =
            ["int", "const int", "int &", "const int &", "int &&", "const int &&", "int *",
             "const int *", "int *const", "const int *const"].map some) ∨
        (b = .other ∧
          (data_rows (table_after "## 1. Base Variable Types" (lines (body_text b)))).map
              label =
            List.replicate 10 (some "unknown"))) := by
    intro b; cases b <;> decide!
  refine ⟨out, hmain, ?_⟩
  rw [hl, table_after_pre _ _ _ _ (by decide)]
  exact key tc.branch

/-- C8, counterexample. On an unrecognized toolchain the row for `decltype((x))`, marked
`x is lvalue`, shows the label `unknown`, which is not an lvalue reference `T&`. -/
theorem parenthesized_table_on_unknown_toolchain :
    ∃ out, main ⟨.other, 0, 0, 0, 0, 201703⟩ = some (out, 0) ∧
      rows_for "decltype((x))" (lines out) = ["| `decltype((x))` | `unknown` | x is lvalue |"] ∧
      (third_cell "| `decltype((x))` | `unknown` | x is lvalue |" >>= marked) = some .lvalue ∧
      label "| `decltype((x))` | `unknown` | x is lvalue |" = some "unknown" ∧
      ends_in_single_amp "unknown" = false := by
  obtain ⟨out, hmain, hl⟩ := document_lines ⟨.other, 0, 0, 0, 0, 201703⟩
  refine ⟨out, hmain, ?_, by decide!, by decide!, by decide!⟩
  rw [hl, rows_for_pre]
  decide!

/-- C8, amended. In the table of section 2.2 the rows are `(x)`, `(cx)`, `(rx)`, `(rrx)`,
`(std::move(x))`, `(42)`, `(get_value())`, `(get_lref())`, `(get_rref())`; the type passed to
`type_name` is an lvalue reference for the five rows whose `Why` cell names an lvalue, an
rvalue reference for the two xvalue rows and no reference for the two prvalue rows, as the
rule printed above the table says. On the Clang and GCC branches every label agrees with the
category in its `Why` cell (a single `&`, `&&`, no `&`); on an unrecognized toolchain every
label is `unknown`. -/
theorem parenthesized_decltype_follows_category (tc : Toolchain) :
    [decltype (.paren (.id .x)), decltype (.paren (.id .cx)), decltype (.paren (.id .rx)),
      decltype (.paren (.id .rrx)), decltype (.paren (.move (.id .x))),
      decltype (.paren .lit42), decltype (.paren (.call .get_value)),
      decltype (.paren (.call .get_lref)), decltype (.paren (.call .get_rref))] =
      [.lref (.int false), .lref (.int true), .lref (.int false), .lref (.int false),
       .rref (.int false), .obj (.int false), .obj (.int false), .lref (.int false),
       .rref (.int false)] ∧
    ∃ out, main tc = some (out, 0) ∧
      (["- **lvalue** → `T&`", "- **xvalue** → `T&&`", "- **prvalue** → `T`"] :
        List String) ⊆ lines out ∧
      (data_rows (table_after "### 2.2 decltype on Parenthesized Expressions"
          (lines out))).map first_cell =
        ["decltype((x))", "decltype((cx))", "decltype((rx))", "decltype((rrx))",
         "decltype((std::move(x)))", "decltype((42))", "decltype((get_value()))",
         "decltype((get_lref()))", "decltype((get_rref()))"].map some ∧
      (data_rows (table_after "### 2.2 decltype on Parenthesized Expressions"
          (lines out))).map (fun r => third_cell r >>= marked) =
        [.lvalue, .lvalue, .lvalue, .lvalue, .xvalue, .prvalue, .prvalue, .lvalue,
         .xvalue].map some ∧
      (data_rows (table_after "### 2.2 decltype on Parenthesized Expressions"
          (lines out))).map label =
        [decltype (.paren (.id .x)), decltype (.paren (.id .cx)), decltype (.paren (.id .rx)),
          decltype (.paren (.id .rrx)), decltype (.paren (.move (.id .x))),
          decltype (.paren .lit42), decltype (.paren (.call .get_value)),
          decltype (.paren (.call .get_lref)), decltype (.paren (.call .get_rref))].map
          (type_name tc.branch) ∧
      ((tc.branch = .other ∧
          (data_rows (table_after "### 2.2 decltype on Parenthesized Expressions"
            (lines out))).map label = List.replicate 9 (some "unknown")) ∨
        (tc.branch ≠ .other ∧
          (data_rows (table_after "### 2.2 decltype on Parenthesized Expressions"
            (lines out))).all agrees_with_why = true)) := by
  refine ⟨rfl, ?_⟩
  obtain ⟨out, hmain, hl⟩ := document_lines tc
  have key : ∀ b,
      (["- **lvalue** → `T&`", "- **xvalue** → `T&&`", "- **prvalue** → `T`"] :
        List String) ⊆ lines (body_text b) ∧
      (data_rows (table_after "### 2.2 decltype on Parenthesized Expressions"
          (lines (body_text b)))).map first_cell =
        ["decltype((x))", "decltype((cx))", "decltype((rx))", "decltype((rrx))",
         "decltype((std::move(x)))", "decltype((42))", "decltype((get_value()))",
         "decltype((get_lref()))", "decltype((get_rref()))"].map some ∧
      (data_rows (table_after "### 2.2 decltype on Parenthesized Expressions"
          (lines (body_text b)))).map (fun r => third_cell r >>= marked) =
        [.lvalue, .lvalue, .lvalue, .lvalue, .xvalue, .prvalue, .prvalue, .lvalue,
         .xvalue].map some ∧
      (data_rows (table_after "### 2.2 decltype on Parenthesized Expressions"
          (lines (body_text b)))).map label =
        [decltype (.paren (.id .x)), decltype (.paren (.id .cx)), decltype (.paren (.id .rx)),
          decltype (.paren (.id .rrx)), decltype (.paren (.move (.id .x))),
          decltype (.paren .lit42), decltype (.paren (.call .get_value)),
          decltype (.paren (.call .get_lref)), decltype (.paren (.call .get_rref))].map
          (type_name b) ∧
      ((b = .other ∧
          (data_rows (table_after "### 2.2 decltype on Parenthesized Expressions"
            (lines (body_text b)))).map label = List.replicate 9 (some "unknown")) ∨
        (b ≠ .other ∧
          (data_rows (table_after "### 2.2 decltype on Parenthesized Expressions"
            (lines (body_text b)))).all agrees_with_why = true)) := by
    intro b; cases b <;> decide!
  obtain ⟨k0, k⟩ := key tc.branch
  refine ⟨out, hmain, ?_, ?_⟩
  · rw [hl]; exact fun x hx => mem_pre_append _ _ _ _ (k0 hx)
  · rw [hl, table_after_pre _ _ _ _ (by decide)]
    exact k

/-- C9, counterexample. On an unrecognized toolchain the row for `auto* const v = px` shows
the label `unknown`, which is not a const pointer. -/
theorem pointer_table_on_unknown_toolchain :
    ∃ out, main ⟨.other, 0, 0, 0, 0, 201703⟩ = some (out, 0) ∧
      rows_for "auto* const v = px" (lines out) =
        ["| `auto* const v = px` | `unknown` | pointer is const |"] ∧
      label "| `auto* const v = px` | `unknown` | pointer is const |" = some "unknown" ∧
      const_pointer_label "unknown" = false := by
  obtain ⟨out, hmain, hl⟩ := document_lines ⟨.other, 0, 0, 0, 0, 201703⟩
  refine ⟨out, hmain, ?_, by decide!, by decide!⟩
  rw [hl, rows_for_pre]
  decide!

/-- C9, amended. In the table of section 5 the types passed to `type_name` agree with the
`Note` cells and with Key Insight 9: `auto v = cpx` gets the type of `auto v = px` (pointer
to int, not const), `auto v = cpcx` gets the type of `auto v = pcx` (pointer to const int,
not const), `auto* v = pcx` and `const auto* v = px` are pointers to const int, and
`auto* const v = px` is the only const pointer. On the Clang and GCC branches the labels are
the toolchain's spellings of these types and the last row is the only one whose label is a
const pointer; on an unrecognized toolchain every label is `unknown`. -/
theorem pointer_rows_follow_notes (tc : Toolchain) :
    [auto_val (.id .px), auto_val (.id .pcx), auto_val (.id .cpx), auto_val (.id .cpcx)] =
      [.obj (.ptr false false), .obj (.ptr true false), .obj (.ptr false false),
       .obj (.ptr true false)] ∧
    [auto_ptr (.id .px), auto_ptr (.id .pcx), const_auto_ptr (.id .px),
      auto_ptr_const (.id .px)] =
      [some (.obj (.ptr false false)), some (.obj (.ptr true false)),
       some (.obj (.ptr true false)), some (.obj (.ptr false true))] ∧
    ∃ out, main tc = some (out, 0) ∧
      "9. **`auto*` preserves pointee const** but `auto` strips top-level pointer const"
        ∈ lines out ∧
      (data_rows (table_after "## 5. Pointers with `auto`" (lines out))).map first_cell =
        ["auto v = px", "auto v = pcx", "auto v = cpx", "auto v = cpcx", "auto* v = px",
         "auto* v = pcx", "const auto* v = px", "auto* const v = px"].map some ∧
      (data_rows (table_after "## 5. Pointers with `auto`" (lines out))).map third_cell =
        [" ", " pointee const preserved ", " top-level const stripped ",
         " top-level const stripped ", " ", " pointee const preserved ",
         " adds pointee const ", " pointer is const "].map some ∧
      (data_rows (table_after "## 5. Pointers with `auto`" (lines out))).map label =
        [some (auto_val (.id .px)), some (auto_val (.id .pcx)), some (auto_val (.id .cpx)),
          some (auto_val (.id .cpcx)), auto_ptr (.id .px), auto_ptr (.id .pcx),
          const_auto_ptr (.id .px), auto_ptr_const (.id .px)].map
          (fun T => T.bind (type_name tc.branch)) ∧
      ((tc.branch = .gnuc ∧
          (data_rows (table_after "## 5. Pointers with `auto`" (lines out))).map label =
            ["int*", "const int*", "int*", "const int*", "int*", "const int*", "const int*",
             "int* const"].map some) ∨
        (tc.branch = .clang ∧
          (data_rows (table_after "## 5. Pointers with `auto`" (lines out))).map label =
            ["int *", "const int *", "int *", "const int *", "int *", "const int *",
             "const int *", "int *const"].map some) ∨
        (tc.branch = .other ∧
          (data_rows (table_after "## 5. Pointers with `auto`" (lines out))).map label =
            List.replicate 8 (some "unknown"))) ∧
      (tc.branch = .other ∨
        (data_rows (table_after "## 5. Pointers with `auto`" (lines out))).map
            (fun r => (label r).map const_pointer_label) =
          [false, false, false, false, false, false, false, true].map some) := by
  refine ⟨rfl, rfl, ?_⟩
  obtain ⟨out, hmain, hl⟩ := document_lines tc
  have key : ∀ b,
      "9. **`auto*` preserves pointee const** but `auto` strips top-level pointer const"
        ∈ lines (body_text b) ∧
      (data_rows (table_after "## 5. Pointers with `auto`" (lines (body_text b)))).map first_cell =
        ["auto v = px", "auto v = pcx", "auto v = cpx", "auto v = cpcx", "auto* v = px",
         "auto* v = pcx", "const auto* v = px", "auto* const v = px"].map some ∧
      (data_rows (table_after "## 5. Pointers with `auto`" (lines (body_text b)))).map third_cell =
        [" ", " pointee const preserved ", " top-level const stripped ",
         " top-level const stripped ", " ", " pointee const preserved ",
         " adds pointee const ", " pointer is const "].map some ∧
      (data_rows (table_after "## 5. Pointers with `auto`" (lines (body_text b)))).map label =
        [some (auto_val (.id .px)), some (auto_val (.id .pcx)), some (auto_val (.id .cpx)),
          some (auto_val (.id .cpcx)), auto_ptr (.id .px), auto_ptr (.id .pcx),
          const_auto_ptr (.id .px), auto_ptr_const (.id .px)].map
          (fun T => T.bind (type_name b)) ∧
      ((b = .gnuc ∧
          (data_rows (table_after "## 5. Pointers with `auto`" (lines (body_text b)))).map
              label =
            ["int*", "const int*", "int*", "const int*", "int*", "const int*", "const int*",
             "int* const"].map some) ∨
        (b = .clang ∧
          (data_rows (table_after "## 5. Pointers with `auto`" (lines (body_text b)))).map
              label =
            ["int *", "const int *", "int *", "const int *", "int *", "const int *",
             "const int *", "int *const"].map some) ∨
        (b = .other ∧
          (data_rows (table_after "## 5. Pointers with `auto`" (lines (body_text b)))).map
              label =
            List.replicate 8 (some "unknown"))) ∧
      (b = .other ∨
        (data_rows (table_after "## 5. Pointers with `auto`" (lines (body_text b)))).map
            (fun r => (label r).map const_pointer_label) =
          [false, false, false, false, false, false, false, true].map some) := by
    intro b; cases b <;> decide!
  obtain ⟨k0, k⟩ := key tc.branch
  refine ⟨out, hmain, ?_, ?_⟩
  · rw [hl]; exact mem_pre_append _ _ _ _ k0
  · rw [hl, table_after_pre _ _ _ _ (by decide)]
    exact k

end TypesZoo
